import Mathlib

/-!
# Verification of the esbuild Vue plugin core

A shallow embedding, in Lean 4, of the core of the `esbuild-plugin-vue-go`
repository: the entry-module synthesizer, the resolve/load query handling for
virtual sub-resources (`vue.go`), the standalone Sass source loader
(`sass.go`), the process-wide bytecode cache and the host-bridge
`fileExists` function of the QuickJS engine package.  Machine integers are
modelled as `Nat` with explicit reduction modulo `2 ^ 64`; Go byte strings are
modelled as `String` (valid UTF-8) or `List Nat` (raw bytes); fallible Go
functions return `Except`/`Option`, and a Go runtime panic is modelled as
`Option.none`.
-/

set_option autoImplicit false

namespace VuePlugin

/-! ## Substring infrastructure

`occursIn pat l` states that the character list `pat` occurs contiguously
inside `l`.  This is the notion of "the generated text contains ..." used by
the synthesis claims. -/

def occursIn (pat l : List Char) : Prop := ∃ a b : List Char, l = a ++ pat ++ b

/-- Ordered double occurrence: `x` occurs and, after it, `y` occurs. -/
def occursInOrder (x y l : List Char) : Prop :=
  ∃ a b c : List Char, l = a ++ x ++ b ++ y ++ c

/-- String-level wrapper for `occursIn`. -/
def sContains (s t : String) : Prop := occursIn t.data s.data

theorem occursIn_exact (a pat b : List Char) : occursIn pat (a ++ pat ++ b) :=
  ⟨a, b, rfl⟩

theorem occursIn_append_left {pat l : List Char} (u : List Char)
    (h : occursIn pat l) : occursIn pat (l ++ u) := by
  obtain ⟨a, b, rfl⟩ := h
  exact ⟨a, b ++ u, by simp⟩

theorem occursIn_append_right {pat l : List Char} (u : List Char)
    (h : occursIn pat l) : occursIn pat (u ++ l) := by
  obtain ⟨a, b, rfl⟩ := h
  exact ⟨u ++ a, b, by simp⟩

theorem mem_of_occursIn {pat l : List Char} {c : Char}
    (h : occursIn pat l) (hc : c ∈ pat) : c ∈ l := by
  obtain ⟨a, b, rfl⟩ := h
  simp [hc]

/-! ## Lowercase hexadecimal rendering

Embedding of `strconv.FormatUint(x, 16)` as used by `generateHashId`
(`vue.go`): minimal-length lowercase base-16 digits.  The digit list is
produced least-significant first (`hexLEAux`, driven by a fuel argument so
that the definition is structurally recursive and kernel-computable) and
reversed. -/

/-- The character for one hexadecimal digit (`0`-`9`, `a`-`f`), lowercase. -/
def hexDigit (n : Nat) : Char :=
  if n < 10 then Char.ofNat (48 + n) else Char.ofNat (87 + n)

/-- Little-endian hex digits of `n`; `fuel` bounds the recursion depth and is
sufficient whenever `n ≤ fuel`. -/
def hexLEAux : Nat → Nat → List Char
  | 0, _ => []
  | _ + 1, 0 => []
  | fuel + 1, n + 1 => hexDigit ((n + 1) % 16) :: hexLEAux fuel ((n + 1) / 16)

/-- Little-endian lowercase hex digits of `n` (empty for `0`). -/
def hexLE (n : Nat) : List Char := hexLEAux n n

/-- Embedding of Go `strconv.FormatUint(n, 16)`. -/
def formatUint16 (n : Nat) : String :=
  if n = 0 then "0" else String.mk (hexLE n).reverse

/-- Numeric value of a lowercase hex digit character (decoder used only in
proofs, to invert `hexDigit`). -/
def hexVal (c : Char) : Nat :=
  if c.toNat ≤ 57 then c.toNat - 48 else c.toNat - 87

/-- Decode a little-endian digit list back to a number. -/
def fromHexLE (l : List Char) : Nat :=
  l.foldr (fun c acc => hexVal c + 16 * acc) 0

theorem hexVal_hexDigit {d : Nat} (h : d < 16) : hexVal (hexDigit d) = d := by
  interval_cases d <;> decide

theorem fromHexLE_hexLEAux :
    ∀ (fuel n : Nat), n ≤ fuel → fromHexLE (hexLEAux fuel n) = n := by
  intro fuel
  induction fuel with
  | zero => intro n hn; interval_cases n; decide
  | succ f ih =>
    intro n hn
    match n with
    | 0 => rfl
    | m + 1 =>
      have hdiv : (m + 1) / 16 ≤ f := by
        have h1 : (m + 1) / 16 < m + 1 := Nat.div_lt_self (Nat.succ_pos m) (by norm_num)
        omega
      have hmod : (m + 1) % 16 < 16 := Nat.mod_lt _ (by norm_num)
      calc fromHexLE (hexLEAux (f + 1) (m + 1))
          = hexVal (hexDigit ((m + 1) % 16)) + 16 * fromHexLE (hexLEAux f ((m + 1) / 16)) := rfl
        _ = (m + 1) % 16 + 16 * ((m + 1) / 16) := by rw [hexVal_hexDigit hmod, ih _ hdiv]
        _ = m + 1 := by omega

theorem fromHexLE_hexLE (n : Nat) : fromHexLE (hexLE n) = n :=
  fromHexLE_hexLEAux n n (Nat.le_refl n)

theorem hexLE_injective {n m : Nat} (h : hexLE n = hexLE m) : n = m := by
  have := fromHexLE_hexLE n
  rw [h, fromHexLE_hexLE] at this
  omega

/-- The set of characters `formatUint16` can emit. -/
def lowerHexChars : List Char := ("0123456789abcdef" : String).data

theorem hexDigit_mem_lowerHexChars {d : Nat} (h : d < 16) :
    hexDigit d ∈ lowerHexChars := by
  interval_cases d <;> decide

theorem hexLEAux_subset_lowerHexChars :
    ∀ (fuel n : Nat), ∀ c ∈ hexLEAux fuel n, c ∈ lowerHexChars := by
  intro fuel
  induction fuel with
  | zero => intro n c hc; simp [hexLEAux] at hc
  | succ f ih =>
    intro n c hc
    match n with
    | 0 => simp [hexLEAux] at hc
    | m + 1 =>
      simp only [hexLEAux, List.mem_cons] at hc
      rcases hc with h | h
      · exact h ▸ hexDigit_mem_lowerHexChars (Nat.mod_lt _ (by norm_num))
      · exact ih _ c h

theorem formatUint16_chars (n : Nat) :
    ∀ c ∈ (formatUint16 n).data, c ∈ lowerHexChars := by
  intro c hc
  unfold formatUint16 at hc
  split at hc
  · simp at hc; simp [hc]; decide
  · simp only [String.mk] at hc
    have := List.mem_reverse.mp hc
    exact hexLEAux_subset_lowerHexChars n n c this

theorem formatUint16_injective {n m : Nat} (h : formatUint16 n = formatUint16 m) :
    n = m := by
  unfold formatUint16 at h
  split at h <;> split at h
  · omega
  · rename_i hn hm
    exfalso
    have hdata : ("0" : String).data = (String.mk (hexLE m).reverse).data := by rw [h]
    have hm0 : fromHexLE (hexLE m) = m := fromHexLE_hexLE m
    have : (hexLE m).reverse = ['0'] := by simpa using hdata.symm
    have : hexLE m = ['0'] := by
      have := congrArg List.reverse this
      simpa using this
    rw [this] at hm0
    simp [fromHexLE, hexVal] at hm0
    omega
  · rename_i hn hm
    exfalso
    have hdata : (String.mk (hexLE n).reverse).data = ("0" : String).data := by rw [h]
    have hn0 : fromHexLE (hexLE n) = n := fromHexLE_hexLE n
    have : (hexLE n).reverse = ['0'] := by simpa using hdata
    have : hexLE n = ['0'] := by
      have := congrArg List.reverse this
      simpa using this
    rw [this] at hn0
    simp [fromHexLE, hexVal] at hn0
    omega
  · rename_i hn hm
    have hdata : (hexLE n).reverse = (hexLE m).reverse := by
      have := congrArg String.data h
      simpa using this
    exact hexLE_injective (List.reverse_injective hdata)

/-! ## XXH64

Embedding of the 64-bit xxHash algorithm (seed 0) over a byte list, as
computed by `xxhash.Sum64String` in `generateHashId` (`vue.go`).  All values
are `Nat`s kept below `2 ^ 64` by explicit reduction `m64`. -/

/-- Reduce modulo `2 ^ 64`. -/
def m64 (x : Nat) : Nat := x % 18446744073709551616

/-- Rotate a 64-bit value (`x < 2 ^ 64`) left by `n` bits. -/
def rotl64 (x n : Nat) : Nat := (m64 (x <<< n)) ||| (x >>> (64 - n))

def xxhPrime1 : Nat := 11400714785074694791
def xxhPrime2 : Nat := 14029467366897019727
def xxhPrime3 : Nat := 1609587929392839161
def xxhPrime4 : Nat := 9650029242287828579
def xxhPrime5 : Nat := 2870177450012600261

/-- Little-endian value of a byte list (first byte is least significant). -/
def leVal (bs : List Nat) : Nat := bs.foldr (fun b acc => b + 256 * acc) 0

/-- One accumulator round: `rotl64(acc + lane * prime2, 31) * prime1`. -/
def xxhRound (acc lane : Nat) : Nat :=
  m64 (rotl64 (m64 (acc + m64 (lane * xxhPrime2))) 31 * xxhPrime1)

/-- Merge one accumulator into the digest. -/
def xxhMerge (h v : Nat) : Nat :=
  m64 (m64 ((h ^^^ xxhRound 0 v) * xxhPrime1) + xxhPrime4)

/-- Consume 32-byte stripes, returning the four accumulators and the
remaining (fewer than 32) bytes. -/
def xxhStripes : Nat → Nat → Nat → Nat → List Nat → (Nat × Nat × Nat × Nat) × List Nat
  | v1, v2, v3, v4, b0 :: b1 :: b2 :: b3 :: b4 :: b5 :: b6 :: b7 ::
      b8 :: b9 :: b10 :: b11 :: b12 :: b13 :: b14 :: b15 ::
      b16 :: b17 :: b18 :: b19 :: b20 :: b21 :: b22 :: b23 ::
      b24 :: b25 :: b26 :: b27 :: b28 :: b29 :: b30 :: b31 :: rest =>
    xxhStripes
      (xxhRound v1 (leVal [b0, b1, b2, b3, b4, b5, b6, b7]))
      (xxhRound v2 (leVal [b8, b9, b10, b11, b12, b13, b14, b15]))
      (xxhRound v3 (leVal [b16, b17, b18, b19, b20, b21, b22, b23]))
      (xxhRound v4 (leVal [b24, b25, b26, b27, b28, b29, b30, b31]))
      rest
  | v1, v2, v3, v4, l => ((v1, v2, v3, v4), l)

/-- Consume the tail (fewer than 32 bytes left): 8-byte lanes, then at most
one 4-byte lane, then single bytes. -/
def xxhTail (h : Nat) : List Nat → Nat
  | b0 :: b1 :: b2 :: b3 :: b4 :: b5 :: b6 :: b7 :: rest =>
    xxhTail (m64 (rotl64 (h ^^^ xxhRound 0 (leVal [b0, b1, b2, b3, b4, b5, b6, b7])) 27
      * xxhPrime1 + xxhPrime4)) rest
  | b0 :: b1 :: b2 :: b3 :: rest =>
    xxhTail (m64 (rotl64 (h ^^^ m64 (leVal [b0, b1, b2, b3] * xxhPrime1)) 23
      * xxhPrime2 + xxhPrime3)) rest
  | b0 :: rest =>
    xxhTail (m64 (rotl64 (h ^^^ m64 (b0 * xxhPrime5)) 11 * xxhPrime1)) rest
  | [] => h

/-- Final avalanche mixing. -/
def xxhAvalanche (h : Nat) : Nat :=
  let h1 := m64 ((h ^^^ (h >>> 33)) * xxhPrime2)
  let h2 := m64 ((h1 ^^^ (h1 >>> 29)) * xxhPrime3)
  h2 ^^^ (h2 >>> 32)

/-- XXH64 with seed 0 over a byte list. -/
def xxh64 (bs : List Nat) : Nat :=
  let n := bs.length
  if 32 ≤ n then
    let s := xxhStripes (m64 (xxhPrime1 + xxhPrime2)) xxhPrime2 0
      (18446744073709551616 - xxhPrime1) bs
    let v1 := s.1.1
    let v2 := s.1.2.1
    let v3 := s.1.2.2.1
    let v4 := s.1.2.2.2
    let h0 := m64 (rotl64 v1 1 + rotl64 v2 7 + rotl64 v3 12 + rotl64 v4 18)
    let h1 := xxhMerge (xxhMerge (xxhMerge (xxhMerge h0 v1) v2) v3) v4
    xxhAvalanche (xxhTail (m64 (h1 + n)) s.2)
  else
    xxhAvalanche (xxhTail (m64 (xxhPrime5 + n)) bs)

/-- UTF-8 encoding of one character as a byte list. -/
def utf8EncodeChar (c : Char) : List Nat :=
  let n := c.toNat
  if n < 0x80 then [n]
  else if n < 0x800 then [0xC0 ||| (n >>> 6), 0x80 ||| (n &&& 0x3F)]
  else if n < 0x10000 then
    [0xE0 ||| (n >>> 12), 0x80 ||| ((n >>> 6) &&& 0x3F), 0x80 ||| (n &&& 0x3F)]
  else
    [0xF0 ||| (n >>> 18), 0x80 ||| ((n >>> 12) &&& 0x3F),
      0x80 ||| ((n >>> 6) &&& 0x3F), 0x80 ||| (n &&& 0x3F)]

/-- The UTF-8 bytes of a string (a Go `string`'s underlying bytes). -/
def utf8Bytes (s : String) : List Nat := s.data.flatMap utf8EncodeChar

/-- Embedding of `xxhash.Sum64String`. -/
def Sum64String (s : String) : Nat := xxh64 (utf8Bytes s)

/-- Embedding of `generateHashId` (`vue.go`): lowercase hex rendering of the
64-bit xxHash of the source text. -/
def generateHashId (source : String) : String := formatUint16 (Sum64String source)

/-! ## SFC parts (the compile-service result shape consumed by `vue.go`)

In the source these are loosely typed `map[string]interface{}` values; the
fields below are exactly the keys the embedded code reads. -/

structure ScriptPart where
  content : Option String
  deriving DecidableEq

structure TemplatePart where
  code : Option String
  deriving DecidableEq

structure StylePart where
  code : String
  isScoped : Bool
  deriving DecidableEq

/-! ## Go `%q` quoting

Embedding of `fmt`'s `%q` verb (`strconv.Quote`) as applied by the entry
template to the relative path and the scope id.  Faithful on printable ASCII
and on the standard escapes; for non-ASCII runes it emits the rune raw (the
printable-rune case; the theorems below only instantiate it on printable
ASCII). -/

def goQuoteChar (c : Char) : List Char :=
  if c = '"' then ['\\', '"']
  else if c = '\\' then ['\\', '\\']
  else if 0x20 ≤ c.toNat ∧ c.toNat < 0x7f then [c]
  else if c = '\x07' then ['\\', 'a']
  else if c = '\x08' then ['\\', 'b']
  else if c = '\x0c' then ['\\', 'f']
  else if c = '\n' then ['\\', 'n']
  else if c = '\r' then ['\\', 'r']
  else if c = '\t' then ['\\', 't']
  else if c = '\x0b' then ['\\', 'v']
  else if c.toNat < 0x80 then
    ['\\', 'x', hexDigit (c.toNat / 16), hexDigit (c.toNat % 16)]
  else [c]

def goQuote (s : String) : String :=
  "\"" ++ String.mk (s.data.flatMap goQuoteChar) ++ "\""

/-- Characters on which `%q` quoting is the identity. -/
def PlainQuotable (s : String) : Prop :=
  ∀ c ∈ s.data, c ≠ '"' ∧ c ≠ '\\' ∧ 0x20 ≤ c.toNat ∧ c.toNat < 0x7f

instance (s : String) : Decidable (PlainQuotable s) := by
  unfold PlainQuotable
  infer_instance

/-! ## Entry-module synthesis

Embedding of `generateEntryContents` (`vue.go:227-302`).  The Go function
first normalizes `filePath` to a POSIX relative path (`filepath.Rel` +
`toPosixPath`) and then executes a fixed `text/template`; the embedding takes
the normalized relative path `relPath` as the argument and expands the fixed
template literally (branch for branch, byte for byte). -/

/-- `hasScript` helper of the entry template: script map present and its
`content` key non-nil. -/
def hasScript (sfcScript : Option ScriptPart) : Bool :=
  match sfcScript with
  | some s => s.content.isSome
  | none => false

/-- `hasTemplate` helper of the entry template: template map present and its
`code` key non-nil. -/
def hasTemplate (sfcTemplate : Option TemplatePart) : Bool :=
  match sfcTemplate with
  | some t => t.code.isSome
  | none => false

/-- `someScoped` helper of the entry template. -/
def someScoped (sfcStyles : List StylePart) : Bool :=
  sfcStyles.any (fun st => st.isScoped)

/-- The `range` body of the entry template: one side-effecting style import
per style part, tagged with its positional index. -/
def styleImports (relPath : String) (count : Nat) : String :=
  String.join ((List.range count).map fun i =>
    "\nimport '" ++ relPath ++ "?type=style&index=" ++ toString i ++ "'\n")

def generateEntryContents (relPath dataId : String) (isSSR : Bool)
    (sfcScript : Option ScriptPart) (sfcTemplate : Option TemplatePart)
    (sfcStyles : List StylePart) : String :=
  let rname := if isSSR then "ssrRender" else "render"
  "\n"
  ++ (if hasScript sfcScript then
        "\nimport script from '" ++ relPath ++ "?type=script'\n"
      else "\nconst script = \x7b\x7d;\n")
  ++ "\n\n"
  ++ styleImports relPath sfcStyles.length
  ++ "\n\n"
  ++ (if hasTemplate sfcTemplate then
        "\nimport \x7b " ++ rname ++ " \x7d from '" ++ relPath ++ "?type=template'\n"
          ++ "script." ++ rname ++ " = " ++ rname ++ ";\n"
      else "")
  ++ "\n\nscript.__file = " ++ goQuote relPath ++ ";\n"
  ++ (if someScoped sfcStyles then "\nscript.__scopeId = " ++ goQuote dataId ++ ";" else "")
  ++ "\n"
  ++ (if isSSR then "\nscript.__ssrInlineRender = true;\n" else "")
  ++ "\n\n"
  ++ (if hasScript sfcScript then "\nexport * from '" ++ relPath ++ "?type=script'\n" else "")
  ++ "\nexport default script;\n"

/-! ## Source preprocessing

Embedding of `readVueSource` (`vue.go:193-216`): the on-disk bytes (taken
here as an argument in place of `os.ReadFile`) have every CRLF replaced by
LF, then the registered Vue load-processor chain runs; a processor error
aborts.  `generateHashId` is applied by the main entry handler to the result
of this function (`vue.go:69-76`). -/

/-- Single left-to-right pass replacing `"\r\n"` by `"\n"`; the embedding of
`strings.ReplaceAll(source, "\r\n", "\n")` at character-list level. -/
def normalizeCRLF : List Char → List Char
  | [] => []
  | [c] => [c]
  | c :: d :: rest =>
    if c = '\r' ∧ d = '\n' then '\n' :: normalizeCRLF rest
    else c :: normalizeCRLF (d :: rest)

/-- Run the Vue load-processor chain in registration order; the first error
aborts. -/
def applyProcessors : List (String → Except String String) → String → Except String String
  | [], s => .ok s
  | p :: rest, s =>
    match p s with
    | .error e => .error e
    | .ok s' => applyProcessors rest s'

def readVueSource (raw : String)
    (onVueLoadProcessors : List (String → Except String String)) : Except String String :=
  applyProcessors onVueLoadProcessors (String.mk (normalizeCRLF raw.data))

/-- The component identity actually computed by the main entry handler: the
hash of the normalized, processor-transformed source (none if a processor
failed). -/
def pipelineHashId (raw : String)
    (onVueLoadProcessors : List (String → Except String String)) : Option String :=
  (readVueSource raw onVueLoadProcessors).toOption.map generateHashId

/-! ## URL query handling (resolve and style load)

Embedding of the `url.Parse(...).Query()` / `strconv.Atoi` usage in
`registerResolveHandler` (`vue.go:334-358`) and `registerStyleHandler`
(`vue.go:435-457`), faithful for paths without `'#'` and without percent- or
plus-escapes in the query (the shapes the plugin itself generates). -/

/-- Split a character list at the first occurrence of `c`; the second
component is `none` when `c` does not occur. -/
def breakAtChar (c : Char) : List Char → List Char × Option (List Char)
  | [] => ([], none)
  | x :: xs =>
    if x = c then ([], some xs)
    else
      let r := breakAtChar c xs
      (x :: r.1, r.2)

def splitCharAux (c : Char) : List Char → List Char → List (List Char)
  | [], acc => [acc.reverse]
  | x :: xs, acc =>
    if x = c then acc.reverse :: splitCharAux c xs [] else splitCharAux c xs (x :: acc)

def splitOnChar (c : Char) (l : List Char) : List (List Char) := splitCharAux c l []

/-- Parse the query-parameter list of a URL-like path: the part after the
first `'?'`, split on `'&'`, each piece split at its first `'='`; empty
pieces are dropped. -/
def parseQuery (path : String) : List (String × String) :=
  match breakAtChar '?' path.data with
  | (_, none) => []
  | (_, some q) =>
    (splitOnChar '&' q).filterMap fun kv =>
      match kv, breakAtChar '=' kv with
      | [], _ => none
      | _, (k, none) => some (String.mk k, "")
      | _, (k, some v) => some (String.mk k, String.mk v)

/-- `url.Values.Get`: first value for the key, `""` when absent. -/
def queryGet (params : List (String × String)) (key : String) : String :=
  match params.find? (fun p => p.1 == key) with
  | some p => p.2
  | none => ""

/-- Digit-string value; `none` when empty or containing a non-digit. -/
def digitsVal (l : List Char) : Option Nat :=
  if l = [] then none
  else if l.all Char.isDigit then
    some (l.foldl (fun acc c => 10 * acc + (c.toNat - 48)) 0)
  else none

/-- Embedding of `strconv.Atoi` (64-bit overflow not modelled; the indices in
scope are small). -/
def atoi (s : String) : Option Int :=
  match s.data with
  | '+' :: rest => (digitsVal rest).map Int.ofNat
  | '-' :: rest => (digitsVal rest).map (fun n => -(n : Int))
  | l => (digitsVal l).map Int.ofNat

/-- The plugin-local data attached to load/resolve results (`pluginData` maps
in `vue.go`); `index` is the slot the resolve handler fills for style
sub-resources. -/
structure PluginData where
  id : String
  script : Option ScriptPart
  template : Option TemplatePart
  styles : List StylePart
  index : Option Int := none
  deriving DecidableEq

structure OnResolveResult where
  path : String
  nsp : String
  pluginData : PluginData
  deriving DecidableEq

/-- Embedding of the tail of `registerResolveHandler` (`vue.go:334-358`) for
an absolute path, no alias mapping, and no custom resolve processors: derive
the namespace from the `type` query parameter and stash the parsed `index`
query parameter in the plugin data. -/
def resolveVue (path : String) (pd : PluginData) : OnResolveResult :=
  let params := parseQuery path
  let t := queryGet params "type"
  let nsp := if t = "" then "file" else "sfc-" ++ t
  let indexStr := queryGet params "index"
  let pd' :=
    if indexStr ≠ "" then
      match atoi indexStr with
      | some i => { pd with index := some i }
      | none => pd
    else pd
  { path := path, nsp := nsp, pluginData := pd' }

/-- Embedding of `registerStyleHandler`'s load callback (`vue.go:435-457`):
re-parse the `index` query parameter from the path (`strconv.Atoi` error
ignored, yielding 0) and index into the stored style sequence.  The Go code
indexes the slice unchecked; an out-of-range index is a runtime panic,
modelled as `none`. -/
def loadStyle (path : String) (pd : PluginData) : Option String :=
  let params := parseQuery path
  let indexStr := queryGet params "index"
  let index : Int := (atoi indexStr).getD 0
  if 0 ≤ index then (pd.styles.get? index.toNat).map (fun st => st.code)
  else none

/-! ## Standalone Sass loading

Embedding of `readSassSource` (`sass.go:91-112`).  A registered pre-load
processor is a function of the load arguments; at one fixed load call each
processor contributes one `Except` outcome, so the chain is modelled as the
list of those outcomes in registration order.  The disk read
(`os.ReadFile`) is passed as an `Except` argument. -/

def readSassSource (onSassLoadProcessors : List (Except String String))
    (disk : Except String String) : Except String String :=
  match onSassLoadProcessors with
  | [] =>
    match disk with
    | .ok s => .ok s
    | .error e => .error ("failed to read sass file: " ++ e)
  | p :: rest =>
    match p with
    | .error e => .error ("sass processor failed: " ++ e)
    | .ok content =>
      if content = "" then readSassSource rest disk else .ok content

/-! ## Process-wide bytecode cache

Embedding of `getCompilerScriptBytecode` and its `sync.Once`-guarded global
slot (`engines/quickjs-go`).  `sync.Once.Do` runs its closure exactly once
per process; calls are modelled as atomic steps on the shared state (the
sequential abstraction of the one-shot guard's mutual exclusion).  `compile`
is the deterministic result of `jse.Ctx.Compile` on the fixed embedded
compiler source; a compile error panics in the source and is outside this
model (the claim quantifies over successful compilation). -/

structure OnceState where
  done : Bool
  compilerScriptBytecode : List Nat
  deriving DecidableEq

/-- The zero-value initial state: guard not fired, `nil` byte slice. -/
def initialOnceState : OnceState := { done := false, compilerScriptBytecode := [] }

/-- One call to `getCompilerScriptBytecode`: returns the cached bytes, the
updated state, and whether the compile step executed during this call. -/
def getCompilerScriptBytecode (compile : List Nat) (s : OnceState) :
    List Nat × OnceState × Bool :=
  if s.done then (s.compilerScriptBytecode, s, false)
  else (compile, { done := true, compilerScriptBytecode := compile }, true)

/-- `n` sequential accessor calls: the list of returned byte sequences, the
final state, and how many times the compile step executed. -/
def accessorCalls (compile : List Nat) : Nat → OnceState → List (List Nat) × OnceState × Nat
  | 0, s => ([], s, 0)
  | n + 1, s =>
    let r := getCompilerScriptBytecode compile s
    let rest := accessorCalls compile n r.2.1
    (r.1 :: rest.1, rest.2.1, (if r.2.2 then 1 else 0) + rest.2.2)

/-! ## Host bridge: `fileExists`

Embedding of `fileExistsFunc` (QuickJS engine package).  The host `os.Stat`
outcome is an oracle argument; the guest-visible return value is a QuickJS
value, which for this function is always a boolean (never a thrown
exception — contrast `readFileFunc`, which calls `ctx.ThrowError`). -/

inductive JsValue where
  | jsBool (b : Bool)
  | jsString (s : String)
  | jsException (msg : String)
  deriving DecidableEq

def fileExistsFunc (stat : String → Except String Unit) (path : String) : JsValue :=
  match stat path with
  | .error _ => .jsBool false
  | .ok _ => .jsBool true

/-! # Claims -/

/-! ## C6: standalone Sass pre-load transform chain -/

theorem readSassSource_skip_empty (pre l : List (Except String String))
    (disk : Except String String) (hpre : ∀ p ∈ pre, p = Except.ok "") :
    readSassSource (pre ++ l) disk = readSassSource l disk := by
  induction pre with
  | nil => rfl
  | cons p rest ih =>
    have hp := hpre p (List.mem_cons_self p rest)
    subst hp
    simpa [readSassSource] using ih (fun q hq => hpre q (List.mem_cons_of_mem _ hq))

/-- C6: for a standalone Sass load, the registered pre-load processors run in
registration order: the first that yields non-empty content supplies the
result (later processors and the disk are not consulted — the result does not
depend on `post` or `disk`); if every processor yields `""` (or none is
registered), the content is read from disk, wrapping a read error; and a
processor error aborts the load with the wrapped error, for every disk
outcome. -/
theorem sass_transform_fallback (pre post : List (Except String String))
    (c e : String) (disk : Except String String)
    (hpre : ∀ p ∈ pre, p = Except.ok "") (hc : c ≠ "") :
    readSassSource (pre ++ Except.ok c :: post) disk = Except.ok c ∧
    readSassSource pre disk =
      (match disk with
       | Except.ok s => Except.ok s
       | Except.error de => Except.error ("failed to read sass file: " ++ de)) ∧
    readSassSource (pre ++ Except.error e :: post) disk =
      Except.error ("sass processor failed: " ++ e) := by
  refine ⟨?_, ?_, ?_⟩
  · rw [readSassSource_skip_empty pre _ disk hpre]
    simp [readSassSource, hc]
  · have := readSassSource_skip_empty pre [] disk hpre
    rw [List.append_nil] at this
    rw [this]
    cases disk <;> rfl
  · rw [readSassSource_skip_empty pre _ disk hpre]
    rfl

/-- C6 witness: the spec's example — first transform returns `""`, the second
returns `"$x:1;"`; the loader returns `"$x:1;"` and ignores the disk; with
zero transforms it falls back to the disk content. -/
theorem sass_transform_fallback_witness :
    readSassSource [Except.ok "", Except.ok "$x:1;"] (Except.ok "disk content") =
      Except.ok "$x:1;" ∧
    readSassSource [] (Except.ok "disk content") = Except.ok "disk content" := by
  have h := sass_transform_fallback [Except.ok ""] [] "$x:1;" "unused"
    (Except.ok "disk content") (by intro p hp; simpa using hp) (by decide)
  have h2 := sass_transform_fallback [] [] "x" "unused" (Except.ok "disk content")
    (by intro p hp; simp at hp) (by decide)
  exact ⟨h.1, h2.2.1⟩

/-! ## C7: process-wide bytecode cache -/

theorem accessorCalls_done (compile : List Nat) :
    ∀ m, accessorCalls compile m { done := true, compilerScriptBytecode := compile } =
      (List.replicate m compile, { done := true, compilerScriptBytecode := compile }, 0) := by
  intro m
  induction m with
  | zero => rfl
  | succ k ih =>
    simp [accessorCalls, getCompilerScriptBytecode, ih, List.replicate]

/-- C7: starting from the zero-value process state, any positive number of
sequential calls of the bytecode-cache accessor compiles exactly once, every
call returns the identical byte sequence, the final state caches exactly that
sequence, and a call on an already-initialized state returns the cached bytes
without recompiling and without changing the state (idempotence). -/
theorem bytecode_cache_once (compile : List Nat) (n : Nat) (hn : 1 ≤ n) :
    (accessorCalls compile n initialOnceState).1 = List.replicate n compile ∧
    (accessorCalls compile n initialOnceState).2.2 = 1 ∧
    (accessorCalls compile n initialOnceState).2.1 =
      { done := true, compilerScriptBytecode := compile } ∧
    (∀ s : OnceState, s.done = true →
      getCompilerScriptBytecode compile s = (s.compilerScriptBytecode, s, false)) := by
  match n, hn with
  | k + 1, _ =>
    have hfirst : getCompilerScriptBytecode compile initialOnceState =
        (compile, { done := true, compilerScriptBytecode := compile }, true) := rfl
    refine ⟨?_, ?_, ?_, ?_⟩
    · simp [accessorCalls, hfirst, accessorCalls_done, List.replicate]
    · simp [accessorCalls, hfirst, accessorCalls_done]
    · simp [accessorCalls, hfirst, accessorCalls_done]
    · intro s hs
      simp [getCompilerScriptBytecode, hs]

/-- C7 witness: ten sequential accessor calls yield ten identical copies of
the compiled bytes with exactly one compilation, and a further call on the
initialized state is a no-op. -/
theorem bytecode_cache_once_witness :
    (accessorCalls [3, 1, 4] 10 initialOnceState).1 = List.replicate 10 [3, 1, 4] ∧
    (accessorCalls [3, 1, 4] 10 initialOnceState).2.2 = 1 ∧
    getCompilerScriptBytecode [3, 1, 4]
        { done := true, compilerScriptBytecode := [3, 1, 4] } =
      ([3, 1, 4], { done := true, compilerScriptBytecode := [3, 1, 4] }, false) := by
  have h := bytecode_cache_once [3, 1, 4] 10 (by decide)
  exact ⟨h.1, h.2.1, h.2.2.2 _ rfl⟩

/-! ## C9: host-bridge `fileExists` never throws -/

/-- C9: for every stat oracle and path, `fileExists` returns a guest boolean
(never a thrown exception), and it returns `true` exactly when the host stat
succeeds — every stat failure yields `false`. -/
theorem fileExists_never_throws (stat : String → Except String Unit) (path : String) :
    (∃ b : Bool, fileExistsFunc stat path = JsValue.jsBool b) ∧
    (∀ msg, fileExistsFunc stat path ≠ JsValue.jsException msg) ∧
    (fileExistsFunc stat path = JsValue.jsBool true ↔ ∃ u, stat path = Except.ok u) ∧
    (fileExistsFunc stat path = JsValue.jsBool false ↔ ∃ e, stat path = Except.error e) := by
  rcases hstat : stat path with e | u <;>
    simp [fileExistsFunc, hstat]

/-! ## C8: component identity is a deterministic content hash -/

/-- C8: the component identity is a deterministic function of the source text
(byte-identical inputs give identical identities); two identities coincide
exactly when the underlying 64-bit hashes coincide (so distinct hash values
always yield distinct identities — collision resistance of the hash itself is
a probabilistic property of xxHash, witnessed below on concrete distinct
inputs); and the identity is rendered entirely in lowercase hexadecimal. -/
theorem identity_deterministic_hex :
    (∀ s t : String, s = t → generateHashId s = generateHashId t) ∧
    (∀ s t : String, generateHashId s = generateHashId t ↔ Sum64String s = Sum64String t) ∧
    (∀ s : String, ∀ c ∈ (generateHashId s).data, c ∈ lowerHexChars) := by
  refine ⟨fun s t h => by rw [h], fun s t => ⟨fun h => formatUint16_injective h, ?_⟩,
    fun s => formatUint16_chars _⟩
  intro h
  unfold generateHashId
  rw [h]

/-- C8 witness: identical sources give the identical identity; the identity
equality is equivalent to hash equality; and two concrete distinct inputs
have distinct identities. -/
theorem identity_deterministic_hex_witness :
    generateHashId "<template><div>Same</div></template>" =
      generateHashId "<template><div>Same</div></template>" ∧
    (generateHashId "a" = generateHashId "b" ↔ Sum64String "a" = Sum64String "b") ∧
    generateHashId "a" ≠ generateHashId "b" := by
  refine ⟨identity_deterministic_hex.1 _ _ rfl, identity_deterministic_hex.2.1 "a" "b", ?_⟩
  decide

/-! ## C10: CRLF normalization happens before hashing and processing -/

theorem normalizeCRLF_cons_ne {c : Char} (s : List Char) (hc : c ≠ '\r') :
    normalizeCRLF (c :: s) = c :: normalizeCRLF s := by
  cases s with
  | nil => rfl
  | cons d rest => simp [normalizeCRLF, hc]

theorem normalizeCRLF_crlf (s : List Char) :
    normalizeCRLF ('\r' :: '\n' :: s) = '\n' :: normalizeCRLF s := by
  simp [normalizeCRLF]

/-- Two raw texts that differ only in their line endings (LF on either side
of any line break, CRLF on the other or on both). -/
inductive LineEq : List Char → List Char → Prop where
  | nil : LineEq [] []
  | same {c : Char} {s t : List Char} : c ≠ '\r' → LineEq s t → LineEq (c :: s) (c :: t)
  | crlfLeft {s t : List Char} : LineEq s t → LineEq ('\r' :: '\n' :: s) ('\n' :: t)
  | crlfRight {s t : List Char} : LineEq s t → LineEq ('\n' :: s) ('\r' :: '\n' :: t)
  | crlfBoth {s t : List Char} : LineEq s t → LineEq ('\r' :: '\n' :: s) ('\r' :: '\n' :: t)

theorem normalizeCRLF_lineEq {s t : List Char} (h : LineEq s t) :
    normalizeCRLF s = normalizeCRLF t := by
  induction h with
  | nil => rfl
  | same hc _ ih => rw [normalizeCRLF_cons_ne _ hc, normalizeCRLF_cons_ne _ hc, ih]
  | crlfLeft _ ih => rw [normalizeCRLF_crlf, normalizeCRLF_cons_ne _ (by decide), ih]
  | crlfRight _ ih => rw [normalizeCRLF_crlf, normalizeCRLF_cons_ne _ (by decide), ih]
  | crlfBoth _ ih => rw [normalizeCRLF_crlf, normalizeCRLF_crlf, ih]

/-- C10: `readVueSource` normalizes CRLF to LF before the load-processor
chain runs, and the component identity is computed from the normalized,
processor-transformed text — so two on-disk sources that differ only in
CRLF-versus-LF line endings produce the identical processor input, the
identical compiler input, and the identical ComponentIdentity, for every
processor chain. -/
theorem crlf_invariant_identity (raw1 raw2 : String)
    (procs : List (String → Except String String))
    (h : LineEq raw1.data raw2.data) :
    readVueSource raw1 procs = readVueSource raw2 procs ∧
    pipelineHashId raw1 procs = pipelineHashId raw2 procs := by
  have hn : normalizeCRLF raw1.data = normalizeCRLF raw2.data := normalizeCRLF_lineEq h
  unfold pipelineHashId readVueSource
  rw [hn]
  exact ⟨rfl, rfl⟩

/-- C10 witness: `"a\r\nb"` and `"a\nb"` (CRLF versus LF) yield the same
loaded source and the same ComponentIdentity through the empty processor
chain; and with a transforming processor the identity is the hash of the
transformed text, not of the raw bytes. -/
theorem crlf_invariant_identity_witness :
    readVueSource "a\r\nb" [] = readVueSource "a\nb" [] ∧
    pipelineHashId "a\r\nb" [] = pipelineHashId "a\nb" [] ∧
    pipelineHashId "a\r\nb" [fun _ => Except.ok "other text"] =
      some (generateHashId "other text") := by
  have hline : LineEq ("a\r\nb".data) ("a\nb".data) :=
    LineEq.same (by decide) (LineEq.crlfLeft (LineEq.same (by decide) LineEq.nil))
  have h := crlf_invariant_identity "a\r\nb" "a\nb" [] hline
  exact ⟨h.1, h.2, rfl⟩

/-! ## Query-parsing support for C2, C3, C4 -/

theorem breakAtChar_append {c : Char} (l m : List Char) (h : c ∉ l) :
    breakAtChar c (l ++ m) = (l ++ (breakAtChar c m).1, (breakAtChar c m).2) := by
  induction l with
  | nil => simp [breakAtChar]
  | cons x xs ih =>
    have hx : ¬(x = c) := fun hxc => h (hxc ▸ List.mem_cons_self x xs)
    have hxs : c ∉ xs := fun hmem => h (List.mem_cons_of_mem x hmem)
    simp [breakAtChar, hx, ih hxs]

theorem parseQuery_split (base rest : String) (h : ('?' : Char) ∉ base.data) :
    parseQuery (base ++ "?" ++ rest) =
      (splitOnChar '&' rest.data).filterMap (fun kv =>
        match kv, breakAtChar '=' kv with
        | [], _ => none
        | _, (k, none) => some (String.mk k, "")
        | _, (k, some v) => some (String.mk k, String.mk v)) := by
  unfold parseQuery
  have hdata : (base ++ "?" ++ rest).data = base.data ++ ('?' :: rest.data) := by simp
  rw [hdata, breakAtChar_append _ _ h]
  simp [breakAtChar]

theorem parseQuery_style1 (base : String) (h : ('?' : Char) ∉ base.data) :
    parseQuery (base ++ "?type=style&index=1") = [("type", "style"), ("index", "1")] := by
  have hcat : base ++ "?type=style&index=1" = base ++ "?" ++ "type=style&index=1" := by
    rw [String.append_assoc]
    rfl
  rw [hcat, parseQuery_split _ _ h]
  rfl

/-! ## C4: style index round trip -/

/-- C4: for a component whose stored style sequence has at least two
elements, resolving a style sub-resource path carrying `index=1` yields the
`sfc-style` namespace (with the parsed index in the plugin data), and loading
the resolved path returns the generated `code` of the second stored style
part — not the first. -/
theorem style_index_round_trip (base : String) (pd : PluginData)
    (s0 s1 : StylePart) (rest : List StylePart)
    (hq : ('?' : Char) ∉ base.data) (hstyles : pd.styles = s0 :: s1 :: rest) :
    (resolveVue (base ++ "?type=style&index=1") pd).nsp = "sfc-style" ∧
    (resolveVue (base ++ "?type=style&index=1") pd).pluginData.index = some 1 ∧
    loadStyle (resolveVue (base ++ "?type=style&index=1") pd).path
      (resolveVue (base ++ "?type=style&index=1") pd).pluginData = some s1.code ∧
    (s0.code ≠ s1.code →
      loadStyle (resolveVue (base ++ "?type=style&index=1") pd).path
        (resolveVue (base ++ "?type=style&index=1") pd).pluginData ≠ some s0.code) := by
  have hpq := parseQuery_style1 base hq
  have hres : resolveVue (base ++ "?type=style&index=1") pd =
      ⟨base ++ "?type=style&index=1", "sfc-style", { pd with index := some 1 }⟩ := by
    simp only [resolveVue, hpq]
    rfl
  have hload : loadStyle (base ++ "?type=style&index=1") { pd with index := some 1 } =
      some s1.code := by
    simp only [loadStyle, hpq]
    simp [queryGet, atoi, digitsVal, hstyles]
  refine ⟨by rw [hres], by rw [hres], by rw [hres]; exact hload, ?_⟩
  intro hne habs
  rw [hres] at habs
  rw [hload] at habs
  exact hne (Option.some.inj habs).symm

/-- C4 witness: round trip at a concrete path and two concrete style parts
returns the second part's code `"B"`. -/
theorem style_index_round_trip_witness :
    (resolveVue ("/src/App.vue" ++ "?type=style&index=1")
      { id := "d", script := none, template := none,
        styles := [⟨"A", false⟩, ⟨"B", true⟩] }).nsp = "sfc-style" ∧
    loadStyle (resolveVue ("/src/App.vue" ++ "?type=style&index=1")
      { id := "d", script := none, template := none,
        styles := [⟨"A", false⟩, ⟨"B", true⟩] }).path
      (resolveVue ("/src/App.vue" ++ "?type=style&index=1")
        { id := "d", script := none, template := none,
          styles := [⟨"A", false⟩, ⟨"B", true⟩] }).pluginData = some "B" := by
  have h := style_index_round_trip "/src/App.vue"
    { id := "d", script := none, template := none,
      styles := [⟨"A", false⟩, ⟨"B", true⟩] }
    ⟨"A", false⟩ ⟨"B", true⟩ [] (by decide) rfl
  exact ⟨h.1, h.2.2.1⟩

/-! ## C2: how the style index reaches the load handler -/

/-- A component state whose out-of-band index slot disagrees with the index
carried by the path, separating the two candidate mechanisms. -/
def c2PluginData : PluginData :=
  { id := "d", script := none, template := none,
    styles := [⟨"A", false⟩, ⟨"B", false⟩], index := some 0 }

/-- C2 counterexample: with the out-of-band (plugin-data) index set to `0`
but the path carrying `index=1`, the style load returns the code of style 1
(`"B"`), not the code style 0 selects (`"A"`): the load handler re-parses the
index from the path instead of consulting the out-of-band value, refuting the
claim that the index reaches the load exclusively through the out-of-band
channel. -/
theorem style_index_side_channel_counterexample :
    c2PluginData.index = some 0 ∧
    loadStyle "/src/App.vue?type=style&index=1" c2PluginData = some "B" ∧
    (c2PluginData.styles.get? 0).map (fun st => st.code) = some "A" ∧
    loadStyle "/src/App.vue?type=style&index=1" c2PluginData ≠
      (c2PluginData.styles.get? 0).map (fun st => st.code) := by
  refine ⟨rfl, by decide, rfl, by decide⟩

/-- C2 amended: the resolve handler does store the parsed positional index in
the out-of-band plugin data attached to the resolution result, but the style
load handler ignores that value and re-parses the index from the path's query
string — the load result is invariant under the out-of-band index slot. -/
theorem style_index_resolve_stores_load_reparses (base path : String)
    (pd : PluginData) (i : Option Int) (hq : ('?' : Char) ∉ base.data) :
    (resolveVue (base ++ "?type=style&index=1") pd).pluginData.index = some 1 ∧
    loadStyle path { pd with index := i } = loadStyle path { pd with index := none } := by
  have hpq := parseQuery_style1 base hq
  constructor
  · simp only [resolveVue, hpq]
    rfl
  · rfl

/-- C2 amended witness: at a concrete path, resolve stores index 1
out-of-band, and the load result is unchanged when the out-of-band slot is
overwritten. -/
theorem style_index_resolve_stores_load_reparses_witness :
    (resolveVue ("/src/App.vue" ++ "?type=style&index=1") c2PluginData).pluginData.index =
      some 1 ∧
    loadStyle "/src/App.vue?type=style&index=1" { c2PluginData with index := some 5 } =
      loadStyle "/src/App.vue?type=style&index=1" { c2PluginData with index := none } := by
  exact style_index_resolve_stores_load_reparses "/src/App.vue"
    "/src/App.vue?type=style&index=1" c2PluginData (some 5) (by decide)

/-! ## C3: out-of-range style index -/

/-- A component with exactly two stored style parts. -/
def c3PluginData : PluginData :=
  { id := "d", script := none, template := none,
    styles := [⟨"A", false⟩, ⟨"B", true⟩] }

/-- C3: loading a style sub-resource whose index (2) is out of range for the
two stored style parts reaches the unchecked slice index `styles[index]` in
the style load handler; the lookup has no defined value (`none`), which in
the Go source is an uncaught runtime panic (`index out of range`) — not the
file-scoped diagnostic the claim requires. -/
theorem style_index_out_of_range_panics :
    loadStyle "/src/App.vue?type=style&index=2" c3PluginData = none := by
  decide

/-! ## Synthesis support for C1, C5 -/

theorem goQuoteChar_plain {c : Char} (h1 : c ≠ '"') (h2 : c ≠ '\\')
    (h3 : 0x20 ≤ c.toNat ∧ c.toNat < 0x7f) : goQuoteChar c = [c] := by
  simp [goQuoteChar, h1, h2, h3]

theorem flatMap_goQuoteChar {l : List Char}
    (h : ∀ c ∈ l, c ≠ '"' ∧ c ≠ '\\' ∧ 0x20 ≤ c.toNat ∧ c.toNat < 0x7f) :
    l.flatMap goQuoteChar = l := by
  induction l with
  | nil => rfl
  | cons c rest ih =>
    have hc := h c (List.mem_cons_self c rest)
    rw [List.flatMap_cons, goQuoteChar_plain hc.1 hc.2.1 hc.2.2,
      ih (fun d hd => h d (List.mem_cons_of_mem c hd))]
    rfl

/-- On printable ASCII without quote or backslash, `%q` is plain quoting. -/
theorem goQuote_plain {s : String} (h : PlainQuotable s) :
    goQuote s = "\"" ++ s ++ "\"" := by
  unfold goQuote
  rw [flatMap_goQuoteChar h]

theorem plainQuotable_append {a b : String} (ha : PlainQuotable a)
    (hb : PlainQuotable b) : PlainQuotable (a ++ b) := by
  intro c hc
  rw [String.data_append] at hc
  rcases List.mem_append.mp hc with h | h
  · exact ha c h
  · exact hb c h

/-- Hash identities (and hence scope ids) are plain-quotable. -/
theorem plainQuotable_dataId (src : String) :
    PlainQuotable ("data-v-" ++ generateHashId src) := by
  apply plainQuotable_append
  · intro c hc
    fin_cases hc <;> decide
  · intro c hc
    have := formatUint16_chars (Sum64String src) c hc
    fin_cases this <;> decide

theorem sContains_append_left (s u t : String) (h : sContains s t) :
    sContains (s ++ u) t := by
  unfold sContains at *
  rw [String.data_append]
  exact occursIn_append_left u.data h

theorem sContains_append_right (u s t : String) (h : sContains s t) :
    sContains (u ++ s) t := by
  unfold sContains at *
  rw [String.data_append]
  exact occursIn_append_right u.data h

theorem sContains_append_of_self (u t : String) : sContains (u ++ t) t :=
  ⟨u.data, [], by simp⟩

theorem occursInOrder_append_str (s u : String) (x y : List Char)
    (h : occursInOrder x y s.data) : occursInOrder x y (s ++ u).data := by
  obtain ⟨a, b, c, habc⟩ := h
  exact ⟨a, b, c ++ u.data, by simp [habc, List.append_assoc]⟩

theorem occursInOrder_tail (P m x y : String) :
    occursInOrder x.data y.data (((P ++ x) ++ m) ++ y).data :=
  ⟨P.data, m.data, [], by simp [List.append_assoc]⟩

/-- The fixed entry template, expanded for a component with a script, a
template, and exactly two style parts, regrouped so that each synthesized
statement is a manifest sub-segment.  The scoped-style segment and the
SSR-marker segment remain conditional. -/
theorem entry_data (relPath dataId : String) (isSSR : Bool)
    (sc : Option ScriptPart) (tm : Option TemplatePart) (s0 s1 : StylePart)
    (hs : hasScript sc = true) (ht : hasTemplate tm = true) :
    generateEntryContents relPath dataId isSSR sc tm [s0, s1] =
      "\n\n" ++ ("import script from '" ++ relPath ++ "?type=script'") ++ "\n\n\n\n"
      ++ ("import '" ++ relPath ++ "?type=style&index=0'") ++ "\n\n"
      ++ ("import '" ++ relPath ++ "?type=style&index=1'") ++ "\n\n\n\n"
      ++ ("import \x7b " ++ (if isSSR then "ssrRender" else "render") ++ " \x7d from '"
          ++ relPath ++ "?type=template'") ++ "\n"
      ++ ("script." ++ (if isSSR then "ssrRender" else "render") ++ " = "
          ++ (if isSSR then "ssrRender" else "render") ++ ";") ++ "\n\n\n"
      ++ ("script.__file = " ++ goQuote relPath ++ ";") ++ "\n"
      ++ (if someScoped [s0, s1] then "\nscript.__scopeId = " ++ goQuote dataId ++ ";" else "")
      ++ "\n"
      ++ (if isSSR then "\nscript.__ssrInlineRender = true;\n" else "")
      ++ "\n\n\n" ++ ("export * from '" ++ relPath ++ "?type=script'") ++ "\n\n"
      ++ "export default script;\n" := by
  have hsty : styleImports relPath 2 =
      "\nimport '" ++ relPath ++ "?type=style&index=" ++ toString 0 ++ "'\n"
      ++ ("\nimport '" ++ relPath ++ "?type=style&index=" ++ toString 1 ++ "'\n") := rfl
  have ht0 : (toString (0 : Nat)) = "0" := rfl
  have ht1 : (toString (1 : Nat)) = "1" := rfl
  have e0 : ("\n" : String).data = ['\n'] := by decide
  have e1 : ("\nimport script from '" : String).data =
      ['\n'] ++ ("import script from '" : String).data := by decide
  have e2 : ("?type=script'\n" : String).data =
      ("?type=script'" : String).data ++ ['\n'] := by decide
  have e3 : ("\nimport '" : String).data = ['\n'] ++ ("import '" : String).data := by decide
  have e4 : ("'\n" : String).data = ("'" : String).data ++ ['\n'] := by decide
  have e5 : ("\nimport \x7b " : String).data =
      ['\n'] ++ ("import \x7b " : String).data := by decide
  have e6 : ("?type=template'\n" : String).data =
      ("?type=template'" : String).data ++ ['\n'] := by decide
  have e7 : (";\n" : String).data = (";" : String).data ++ ['\n'] := by decide
  have e8 : ("\n\nscript.__file = " : String).data =
      ['\n', '\n'] ++ ("script.__file = " : String).data := by decide
  have e9 : ("\nexport * from '" : String).data =
      ['\n'] ++ ("export * from '" : String).data := by decide
  have e10 : ("\nexport default script;\n" : String).data =
      ['\n'] ++ ("export default script;\n" : String).data := by decide
  have e12 : ("\n\n" : String).data = ['\n', '\n'] := by decide
  have e13 : ("\n\n\n\n" : String).data = ['\n', '\n', '\n', '\n'] := by decide
  have e14 : ("\n\n\n" : String).data = ['\n', '\n', '\n'] := by decide
  have e16 : ("?type=style&index=0'" : String).data =
      ("?type=style&index=" : String).data ++ ("0" : String).data
        ++ ("'" : String).data := by decide
  have e17 : ("?type=style&index=1'" : String).data =
      ("?type=style&index=" : String).data ++ ("1" : String).data
        ++ ("'" : String).data := by decide
  apply String.ext
  set_option maxRecDepth 4096 in
  simp only [generateEntryContents, List.length_cons, List.length_nil, hsty, ht0, ht1,
    hs, ht, if_true, String.data_append,
    e0, e1, e2, e3, e4, e5, e6, e7, e8, e9, e10, e12, e13, e14, e16, e17,
    List.append_assoc, List.cons_append, List.nil_append]

theorem not_mem_data_append {c : Char} {a b : String} (ha : c ∉ a.data)
    (hb : c ∉ b.data) : c ∉ (a ++ b).data := by
  rw [String.data_append]
  intro hmem
  rcases List.mem_append.mp hmem with h | h
  · exact ha h
  · exact hb h

/-! ## C1: synthesis completeness -/

/-- C1: for a compiled component with a script part, a template part, and
exactly two style parts of which at least one is scoped, the synthesized
entry module contains the script import (`?type=script`), the two style
imports (`index=0` then `index=1`, in that order), the render-function import
from the template sub-resource (`?type=template`), the assignment of the
normalized relative path to `script.__file`, and the assignment of the
`data-v-`-prefixed ComponentIdentity to `script.__scopeId`. -/
theorem entry_synthesis_complete (relPath src : String) (isSSR : Bool)
    (sc : Option ScriptPart) (tm : Option TemplatePart) (s0 s1 : StylePart)
    (hplain : PlainQuotable relPath)
    (hs : hasScript sc = true) (ht : hasTemplate tm = true)
    (hscoped : s0.isScoped = true ∨ s1.isScoped = true) :
    sContains
      (generateEntryContents relPath ("data-v-" ++ generateHashId src) isSSR sc tm [s0, s1])
      ("import script from '" ++ relPath ++ "?type=script'") ∧
    occursInOrder ("import '" ++ relPath ++ "?type=style&index=0'").data
      ("import '" ++ relPath ++ "?type=style&index=1'").data
      (generateEntryContents relPath ("data-v-" ++ generateHashId src) isSSR sc tm
        [s0, s1]).data ∧
    sContains
      (generateEntryContents relPath ("data-v-" ++ generateHashId src) isSSR sc tm [s0, s1])
      ("import \x7b " ++ (if isSSR then "ssrRender" else "render") ++ " \x7d from '"
        ++ relPath ++ "?type=template'") ∧
    sContains
      (generateEntryContents relPath ("data-v-" ++ generateHashId src) isSSR sc tm [s0, s1])
      ("script.__file = \"" ++ relPath ++ "\";") ∧
    sContains
      (generateEntryContents relPath ("data-v-" ++ generateHashId src) isSSR sc tm [s0, s1])
      ("script.__scopeId = \"data-v-" ++ generateHashId src ++ "\";") := by
  have hsc : someScoped [s0, s1] = true := by
    rcases hscoped with h | h <;> simp [someScoped, h]
  have hd := entry_data relPath ("data-v-" ++ generateHashId src) isSSR sc tm s0 s1 hs ht
  rw [if_pos hsc] at hd
  have hfile : ("script.__file = " ++ goQuote relPath ++ ";") =
      "script.__file = \"" ++ relPath ++ "\";" := by
    rw [goQuote_plain hplain]
    apply String.ext
    simp [String.data_append, List.append_assoc]
  have hscope : ("\nscript.__scopeId = " ++ goQuote ("data-v-" ++ generateHashId src) ++ ";") =
      "\n" ++ ("script.__scopeId = \"data-v-" ++ generateHashId src ++ "\";") := by
    rw [goQuote_plain (plainQuotable_dataId src)]
    apply String.ext
    simp [String.data_append, List.append_assoc]
  rw [hfile, hscope] at hd
  refine ⟨?_, ?_, ?_, ?_, ?_⟩
  · rw [hd]
    iterate 18 apply sContains_append_left
    exact sContains_append_of_self _ _
  · rw [hd]
    iterate 14 apply occursInOrder_append_str
    exact occursInOrder_tail _ _ _ _
  · rw [hd]
    iterate 12 apply sContains_append_left
    exact sContains_append_of_self _ _
  · rw [hd]
    iterate 8 apply sContains_append_left
    exact sContains_append_of_self _ _
  · rw [hd]
    iterate 6 apply sContains_append_left
    apply sContains_append_right
    exact sContains_append_of_self _ _

/-- C1 witness: a concrete component (script, template, two styles with the
first scoped) at path `src/App.vue`: the synthesized module contains the
script import and the scope-id assignment for the content hash of `"x"`. -/
theorem entry_synthesis_complete_witness :
    sContains
      (generateEntryContents "src/App.vue" ("data-v-" ++ generateHashId "x") false
        (some ⟨some "export default \x7b\x7d"⟩) (some ⟨some "render code"⟩)
        [⟨"A", true⟩, ⟨"B", false⟩])
      ("import script from '" ++ "src/App.vue" ++ "?type=script'") ∧
    sContains
      (generateEntryContents "src/App.vue" ("data-v-" ++ generateHashId "x") false
        (some ⟨some "export default \x7b\x7d"⟩) (some ⟨some "render code"⟩)
        [⟨"A", true⟩, ⟨"B", false⟩])
      ("script.__scopeId = \"data-v-" ++ generateHashId "x" ++ "\";") := by
  have h := entry_synthesis_complete "src/App.vue" "x" false
    (some ⟨some "export default \x7b\x7d"⟩) (some ⟨some "render code"⟩)
    ⟨"A", true⟩ ⟨"B", false⟩ (by decide) rfl rfl (Or.inl rfl)
  exact ⟨h.1, h.2.2.2.2⟩

/-! ## C5: SSR versus CSR naming -/

/-- C5: with `isSSR = true` the synthesized module imports `ssrRender` from
the template sub-resource, assigns it to `script.ssrRender`, and sets
`script.__ssrInlineRender = true`; with `isSSR = false` it imports and
assigns `render` instead, and (for path and identity texts that do not
themselves contain the letter `R`, which appears in no emitted literal other
than the SSR marker and names) the emitted text contains no
`__ssrInlineRender` assignment at all. -/
theorem ssr_naming (relPath dataId : String)
    (sc : Option ScriptPart) (tm : Option TemplatePart) (s0 s1 : StylePart)
    (hs : hasScript sc = true) (ht : hasTemplate tm = true) :
    (sContains (generateEntryContents relPath dataId true sc tm [s0, s1])
        ("import \x7b ssrRender \x7d from '" ++ relPath ++ "?type=template'") ∧
      sContains (generateEntryContents relPath dataId true sc tm [s0, s1])
        "script.ssrRender = ssrRender;" ∧
      sContains (generateEntryContents relPath dataId true sc tm [s0, s1])
        "script.__ssrInlineRender = true;") ∧
    (sContains (generateEntryContents relPath dataId false sc tm [s0, s1])
        ("import \x7b render \x7d from '" ++ relPath ++ "?type=template'") ∧
      sContains (generateEntryContents relPath dataId false sc tm [s0, s1])
        "script.render = render;" ∧
      (PlainQuotable relPath → PlainQuotable dataId →
        ('R' : Char) ∉ relPath.data → ('R' : Char) ∉ dataId.data →
        ¬ sContains (generateEntryContents relPath dataId false sc tm [s0, s1])
          "__ssrInlineRender")) := by
  have hdT : generateEntryContents relPath dataId true sc tm [s0, s1] =
      "\n\n" ++ ("import script from '" ++ relPath ++ "?type=script'") ++ "\n\n\n\n"
      ++ ("import '" ++ relPath ++ "?type=style&index=0'") ++ "\n\n"
      ++ ("import '" ++ relPath ++ "?type=style&index=1'") ++ "\n\n\n\n"
      ++ ("import \x7b " ++ "ssrRender" ++ " \x7d from '" ++ relPath ++ "?type=template'")
      ++ "\n"
      ++ ("script." ++ "ssrRender" ++ " = " ++ "ssrRender" ++ ";") ++ "\n\n\n"
      ++ ("script.__file = " ++ goQuote relPath ++ ";") ++ "\n"
      ++ (if someScoped [s0, s1] then "\nscript.__scopeId = " ++ goQuote dataId ++ ";" else "")
      ++ "\n"
      ++ "\nscript.__ssrInlineRender = true;\n"
      ++ "\n\n\n" ++ ("export * from '" ++ relPath ++ "?type=script'") ++ "\n\n"
      ++ "export default script;\n" :=
    entry_data relPath dataId true sc tm s0 s1 hs ht
  have hdF : generateEntryContents relPath dataId false sc tm [s0, s1] =
      "\n\n" ++ ("import script from '" ++ relPath ++ "?type=script'") ++ "\n\n\n\n"
      ++ ("import '" ++ relPath ++ "?type=style&index=0'") ++ "\n\n"
      ++ ("import '" ++ relPath ++ "?type=style&index=1'") ++ "\n\n\n\n"
      ++ ("import \x7b " ++ "render" ++ " \x7d from '" ++ relPath ++ "?type=template'")
      ++ "\n"
      ++ ("script." ++ "render" ++ " = " ++ "render" ++ ";") ++ "\n\n\n"
      ++ ("script.__file = " ++ goQuote relPath ++ ";") ++ "\n"
      ++ (if someScoped [s0, s1] then "\nscript.__scopeId = " ++ goQuote dataId ++ ";" else "")
      ++ "\n"
      ++ ""
      ++ "\n\n\n" ++ ("export * from '" ++ relPath ++ "?type=script'") ++ "\n\n"
      ++ "export default script;\n" :=
    entry_data relPath dataId false sc tm s0 s1 hs ht
  have himpT : ("import \x7b ssrRender \x7d from '" ++ relPath ++ "?type=template'") =
      ("import \x7b " ++ "ssrRender" ++ " \x7d from '" ++ relPath ++ "?type=template'") := by
    apply String.ext
    simp [String.data_append, List.append_assoc]
  have hasgT : ("script.ssrRender = ssrRender;" : String) =
      "script." ++ "ssrRender" ++ " = " ++ "ssrRender" ++ ";" := by decide
  have himpF : ("import \x7b render \x7d from '" ++ relPath ++ "?type=template'") =
      ("import \x7b " ++ "render" ++ " \x7d from '" ++ relPath ++ "?type=template'") := by
    apply String.ext
    simp [String.data_append, List.append_assoc]
  have hasgF : ("script.render = render;" : String) =
      "script." ++ "render" ++ " = " ++ "render" ++ ";" := by decide
  have hmarker : ("\nscript.__ssrInlineRender = true;\n" : String) =
      ("\n" ++ "script.__ssrInlineRender = true;") ++ "\n" := by decide
  rw [hmarker] at hdT
  refine ⟨⟨?_, ?_, ?_⟩, ?_, ?_, ?_⟩
  · rw [hdT, himpT]
    iterate 12 apply sContains_append_left
    exact sContains_append_of_self _ _
  · rw [hdT, hasgT]
    iterate 10 apply sContains_append_left
    exact sContains_append_of_self _ _
  · rw [hdT]
    iterate 4 apply sContains_append_left
    apply sContains_append_right
    apply sContains_append_left
    exact sContains_append_of_self _ _
  · rw [hdF, himpF]
    iterate 12 apply sContains_append_left
    exact sContains_append_of_self _ _
  · rw [hdF, hasgF]
    iterate 10 apply sContains_append_left
    exact sContains_append_of_self _ _
  · intro hpR hpD hR hD hcon
    have hRin : ('R' : Char) ∈ ("__ssrInlineRender" : String).data := by decide
    have hmem := mem_of_occursIn hcon hRin
    rw [goQuote_plain hpR, goQuote_plain hpD] at hdF
    rw [hdF] at hmem
    revert hmem
    cases hscs : someScoped [s0, s1] with
    | true =>
      rw [if_pos (show (true : Bool) = true from rfl)]
      repeat' apply not_mem_data_append
      all_goals first
        | exact hR
        | exact hD
        | decide
    | false =>
      rw [if_neg Bool.false_ne_true]
      repeat' apply not_mem_data_append
      all_goals first
        | exact hR
        | exact hD
        | decide

/-- C5 witness: at a concrete component, the SSR module contains the
`ssrRender` import and the inline-SSR marker assignment, while the CSR
module assigns `render` and contains no `__ssrInlineRender` text. -/
theorem ssr_naming_witness :
    sContains
      (generateEntryContents "src/App.vue" "data-v-1a2b" true
        (some ⟨some "export default \x7b\x7d"⟩) (some ⟨some "render code"⟩)
        [⟨"A", false⟩, ⟨"B", false⟩])
      ("import \x7b ssrRender \x7d from '" ++ "src/App.vue" ++ "?type=template'") ∧
    sContains
      (generateEntryContents "src/App.vue" "data-v-1a2b" true
        (some ⟨some "export default \x7b\x7d"⟩) (some ⟨some "render code"⟩)
        [⟨"A", false⟩, ⟨"B", false⟩])
      "script.__ssrInlineRender = true;" ∧
    sContains
      (generateEntryContents "src/App.vue" "data-v-1a2b" false
        (some ⟨some "export default \x7b\x7d"⟩) (some ⟨some "render code"⟩)
        [⟨"A", false⟩, ⟨"B", false⟩])
      "script.render = render;" ∧
    ¬ sContains
      (generateEntryContents "src/App.vue" "data-v-1a2b" false
        (some ⟨some "export default \x7b\x7d"⟩) (some ⟨some "render code"⟩)
        [⟨"A", false⟩, ⟨"B", false⟩])
      "__ssrInlineRender" := by
  have h := ssr_naming "src/App.vue" "data-v-1a2b"
    (some ⟨some "export default \x7b\x7d"⟩) (some ⟨some "render code"⟩)
    ⟨"A", false⟩ ⟨"B", false⟩ rfl rfl
  exact ⟨h.1.1, h.1.2.2, h.2.2.1,
    h.2.2.2 (by decide) (by decide) (by decide) (by decide)⟩

end VuePlugin
